import Mathlib

/-!
Shallow embedding of the ISI Generator core (`handleISIValues` and its inner
`generateRow` from `src/components/isi-form.tsx`, the final iteration of the
repository).  The generator is a pure text-to-HTML template renderer: it
splits the pasted ISI text into lines, classifies each line (`**` bold,
`-` bullet, otherwise plain), renders one table-row fragment per non-empty
line, and wraps the concatenation in an outer 600px presentation table.

Numeric form fields (padding, fontSize, lineHeight, gutterWidth) are coerced
numbers in the source; the generator only ever stringifies them and tests
their JS truthiness, so they are modelled as `Option Int` (absent = JS
`undefined`).  Color fields are `Option String`.  JS template interpolation
of `undefined` produces the text "undefined"; JS truthiness of a number is
"non-zero", of a string "non-empty"; both are modelled explicitly below.
-/

namespace ISI

/-- JS template-literal interpolation of an optional number: `undefined`
prints as "undefined", a number prints in decimal. -/
def jsNum : Option Int → String
  | none => "undefined"
  | some n => toString n

/-- JS template-literal interpolation of an optional string: `undefined`
prints as "undefined", a string prints as itself. -/
def jsColor : Option String → String
  | none => "undefined"
  | some s => s

/-- The validated form record (`ISIValues`, isi-form.tsx lines 23-58).
`ISI` is the required text; every other field is optional. -/
structure ISIValues where
  padding : Option Int
  fontSize : Option Int
  fontColor : Option String
  tableColor : Option String
  lineHeight : Option Int
  gutterWidth : Option Int
  ISI : String
  hasBullets : Option Bool
  bulletColor : Option String
deriving DecidableEq

/-- The form's `defaultValues` (isi-form.tsx lines 70-81). -/
def defaultISIValues : ISIValues where
  padding := some 10
  fontSize := some 16
  fontColor := some "#000000"
  tableColor := some "#FFFFFE"
  lineHeight := some 16
  gutterWidth := some 30
  ISI := ""
  hasBullets := some false
  bulletColor := some "#000000"

/-- The `commonStyle` template literal (isi-form.tsx line 98). -/
def commonStyle (v : ISIValues) (isBold : Bool) : String :=
  "font-family: Arial, Helvetica, sans-serif; font-size: " ++ jsNum v.fontSize ++
  "px; line-height: " ++ jsNum v.lineHeight ++
  "px; color: " ++ jsColor v.fontColor ++
  "; padding-bottom: " ++ jsNum v.padding ++
  "px; font-weight: " ++ (if isBold then "bold;" else "normal;")

/-- The left cell of the nested bullet table (part of isi-form.tsx line 101):
width 12, bullet glyph, bold, colored with `bulletColor`. -/
def bulletGlyphCell (v : ISIValues) : String :=
  "<td width=\"12\" valign=\"top\" align=\"left\" style=\"font-family: Arial, Helvetica, sans-serif; font-size: " ++
  jsNum v.fontSize ++ "px; line-height: " ++ jsNum v.lineHeight ++
  "px; color: " ++ jsColor v.bulletColor ++ "; padding-bottom: " ++ jsNum v.padding ++
  "px; font-weight: bold;\">&bull;</td>"

/-- The right cell of the nested bullet table (part of isi-form.tsx line
101): the line text wrapped in the common style. -/
def bulletTextCell (v : ISIValues) (isBold : Bool) (text : String) : String :=
  "<td valign=\"top\" align=\"left\" style=\"" ++ commonStyle v isBold ++ "\">" ++ text ++ "</td>"

/-- The inner `generateRow` closure (isi-form.tsx lines 93-105).  If
`isBullet` it emits a row holding a nested two-column table (glyph cell,
then the text with the common style); otherwise a single-cell row. -/
def generateRow (v : ISIValues) (text : String) (isBold : Bool) (isBullet : Bool) : String :=
  if isBullet then
    "\n\t\t\t\t<tr>\n\t\t\t\t\t<td>\n\t\t\t\t\t\t" ++
    "<table cellpadding=\"0\" cellspacing=\"0\" border=\"0\" width=\"100%\">" ++
    "\n\t\t\t\t\t\t\t<tr>\n\t\t\t\t\t\t\t\t" ++
    bulletGlyphCell v ++
    "\n\t\t\t\t\t\t\t\t" ++
    bulletTextCell v isBold text ++
    "\n\t\t\t\t\t\t\t</tr>\n\t\t\t\t\t\t</table>\n\t\t\t\t\t</td>\n\t\t\t\t</tr>"
  else
    "\n\t\t\t\t<tr>\n\t\t\t\t\t<td align=\"left\" style=\"" ++ commonStyle v isBold ++
    "\">\n\t\t\t\t\t\t" ++ text ++ "\n\t\t\t\t\t</td>\n\t\t\t\t</tr>"

/-- JS `ISI.split(/\r?\n|\r/)` on the character list: the regex alternation
matches, leftmost-first, the two-character ending CR LF, else a lone LF,
else a lone CR; each match separates two fragments. -/
def splitEOL : List Char → List (List Char)
  | [] => [[]]
  | '\r' :: '\n' :: rest => [] :: splitEOL rest
  | '\r' :: rest => [] :: splitEOL rest
  | '\n' :: rest => [] :: splitEOL rest
  | c :: rest =>
    match splitEOL rest with
    | [] => [[c]]
    | l :: ls => (c :: l) :: ls

/-- Splitting the ISI string into line strings (isi-form.tsx line 107). -/
def splitISI (s : String) : List String :=
  (splitEOL s.data).map String.mk

/-- The `.filter((row) => row.length > 0)` step (isi-form.tsx line 108). -/
def nonEmptyLines (s : String) : List String :=
  (splitISI s).filter (fun r => r.length > 0)

/-- Boolean prefix test on character lists. -/
def listPrefix : List Char → List Char → Bool
  | [], _ => true
  | _ :: _, [] => false
  | a :: as, b :: bs => a == b && listPrefix as bs

/-- JS `text.startsWith(p)`: a prefix test on the character sequence. -/
def jsStartsWith (s p : String) : Bool :=
  listPrefix p.data s.data

/-- JS `text.substring(n)`: the text with its first n characters dropped. -/
def jsDrop (s : String) (n : Nat) : String :=
  String.mk (s.data.drop n)

/-- The `.map` classification step (isi-form.tsx lines 109-114): `**` is
checked first (bold, strip 2), then `-` (bullet, strip 1), else plain. -/
def classifyRow (v : ISIValues) (text : String) : String :=
  if jsStartsWith text "**" then generateRow v (jsDrop text 2) true false
  else if jsStartsWith text "-" then generateRow v (jsDrop text 1) false true
  else generateRow v text false false

/-- The list of row fragments, one per non-empty line, in input order. -/
def rowFragments (v : ISIValues) : List String :=
  (nonEmptyLines v.ISI).map (classifyRow v)

/-- JS `.join("")`: plain concatenation of the fragments in order. -/
def joinAll : List String → String
  | [] => ""
  | x :: xs => x ++ joinAll xs

/-- The `generatedISIRows` constant (isi-form.tsx lines 107-115). -/
def generatedISIRows (v : ISIValues) : String :=
  joinAll (rowFragments v)

/-- The `gutterWidthValue` constant (isi-form.tsx line 117):
`gutterWidth ? gutterWidth : "30px"` — a truthy (non-zero) number prints in
decimal, otherwise the literal "30px". -/
def gutterWidthValue (v : ISIValues) : String :=
  match v.gutterWidth with
  | none => "30px"
  | some n => if n = 0 then "30px" else toString n

/-- The `tableColorValue` constant (isi-form.tsx line 118):
`tableColor ? tableColor : "#FFFFFE"` — a truthy (non-empty) string is kept,
otherwise the default. -/
def tableColorValue (v : ISIValues) : String :=
  match v.tableColor with
  | none => "#FFFFFE"
  | some s => if s = "" then "#FFFFFE" else s

/-- The outer presentation table template (isi-form.tsx line 120): fixed
width 600, `bgcolor` from the resolved table color, two gutter cells of the
resolved gutter width flanking a middle cell holding a width-100% inner
table that contains the row fragments. -/
def outerTable (tc gw rows : String) : String :=
  "<table cellpadding=\"0\" cellspacing=\"0\" border=\"0\" width=\"600\" style=\"min-width: 600px;\" class=\"wrapper\" role=\"presentation\" bgcolor=\"" ++
  tc ++ "\">\n\t<tr>\n\t\t<td width=\"" ++ gw ++
  "\" class=\"gutter\">&nbsp;</td>\n\t\t<td>\n\t\t\t<table cellpadding=\"0\" cellspacing=\"0\" border=\"0\" width=\"100%\">" ++
  rows ++
  "\n\t\t\t</table>\n\t\t</td>\n\t\t<td width=\"" ++ gw ++
  "\" class=\"gutter\">&nbsp;</td>\n\t</tr>\n</table>"

/-- The full generation function `handleISIValues` (isi-form.tsx lines
83-124), returning the string passed to `setGeneratedISI`. -/
def handleISIValues (v : ISIValues) : String :=
  outerTable (tableColorValue v) (gutterWidthValue v) (generatedISIRows v)

/-- The marker stripping applied by the classification step: `**` strips two
characters, `-` strips one, a plain line is unchanged. -/
def stripMarker (text : String) : String :=
  if jsStartsWith text "**" then jsDrop text 2
  else if jsStartsWith text "-" then jsDrop text 1
  else text

/-- Modelled from the spec: "Split `isiText` on line-ending patterns `\r\n`,
`\r`, `\n`" — normalize CR LF and lone CR to LF first. -/
def normEOL : List Char → List Char
  | [] => []
  | '\r' :: '\n' :: rest => '\n' :: normEOL rest
  | '\r' :: rest => '\n' :: normEOL rest
  | c :: rest => c :: normEOL rest

/-- Modelled from the spec: splitting on the (already normalized) newline
character alone. -/
def splitNL : List Char → List (List Char)
  | [] => [[]]
  | '\n' :: rest => [] :: splitNL rest
  | c :: rest =>
    match splitNL rest with
    | [] => [[c]]
    | l :: ls => (c :: l) :: ls

/-- Modelled from the spec: the line list obtained by recognizing all three
line endings, via normalization then splitting on LF. -/
def specSplitLines (s : String) : List String :=
  (splitNL (normEOL s.data)).map String.mk

/-- Substring as explicit decomposition: `p` occurs character-for-character
inside `s`. -/
def SubStr (p s : String) : Prop :=
  ∃ a b : String, s = a ++ p ++ b

/-- Boolean substring search on character lists. -/
def containsSubAux (p : List Char) : List Char → Bool
  | [] => p.isEmpty
  | s@(_ :: rest) => listPrefix p s || containsSubAux p rest

/-- Boolean substring test on strings, used to evaluate concrete outputs. -/
def containsSub (p s : String) : Bool :=
  containsSubAux p.data s.data

/-- A record in which every optional field is absent or a zero-length
string (both pass the form's validation regexes), probing the render-time
defaulting policy. -/
def allAbsentConfig : ISIValues where
  padding := none
  fontSize := none
  fontColor := some ""
  tableColor := some ""
  lineHeight := none
  gutterWidth := none
  ISI := "x"
  hasBullets := none
  bulletColor := some ""

/-- A record whose style numbers and font color carry the form's default
values while tableColor and gutterWidth are absent. -/
def partialDefaultConfig : ISIValues where
  padding := some 10
  fontSize := some 16
  fontColor := some "#000000"
  tableColor := none
  lineHeight := some 16
  gutterWidth := some 0
  ISI := "x"
  hasBullets := none
  bulletColor := none

/-- A record with a bullet line, `hasBullets` off, and a first probe bullet
color. -/
def bulletProbeA : ISIValues :=
  { defaultISIValues with ISI := "-a", hasBullets := some false, bulletColor := some "#123456" }

/-- The same record with only the bullet color changed. -/
def bulletProbeB : ISIValues :=
  { defaultISIValues with ISI := "-a", hasBullets := some false, bulletColor := some "#654321" }

end ISI

namespace ISI

theorem splitEOL_ne_nil (l : List Char) : splitEOL l ≠ [] := by
  induction l using splitEOL.induct <;> simp_all [splitEOL]

theorem splitNL_ne_nil (l : List Char) : splitNL l ≠ [] := by
  induction l using splitNL.induct <;> simp_all [splitNL]

theorem splitEOL_eq_spec (l : List Char) : splitEOL l = splitNL (normEOL l) := by
  induction l using splitEOL.induct with
  | case1 => rfl
  | case2 rest ih => simp [splitEOL, normEOL, splitNL, ih]
  | case3 rest hne ih =>
    have hnorm : normEOL ('\r' :: rest) = '\n' :: normEOL rest := by
      cases rest with
      | nil => rfl
      | cons c cs =>
        by_cases hc : c = '\n'
        · exact absurd (by rw [hc]) (fun h => hne cs h)
        · simp [normEOL, hc]
    rw [hnorm]
    simp [splitEOL, splitNL, ih]
  | case4 rest ih => simp [splitEOL, normEOL, splitNL, ih]
  | case5 c rest hne hr hn hnil ih => exact absurd hnil (splitEOL_ne_nil rest)
  | case6 c rest hne hr hn l ls heq ih =>
    have hnorm : normEOL (c :: rest) = c :: normEOL rest := by
      cases rest with
      | nil => simp [normEOL, hr]
      | cons d ds =>
        by_cases hd : c = '\r'
        · exact absurd hd hr
        · simp [normEOL, hd]
    rw [hnorm]
    have hsn : splitNL (normEOL rest) = l :: ls := by rw [← ih, heq]
    simp [splitEOL, splitNL, hn, heq, hsn]

theorem splitISI_eq_spec (s : String) : splitISI s = specSplitLines s := by
  unfold splitISI specSplitLines
  rw [splitEOL_eq_spec]

end ISI

namespace ISI

theorem substr_refl (p : String) : SubStr p p :=
  ⟨"", "", by simp⟩

theorem substr_wrap (p a b : String) : SubStr p (a ++ p ++ b) :=
  ⟨a, b, rfl⟩

theorem substr_mono (p s a b : String) (h : SubStr p s) : SubStr p (a ++ s ++ b) := by
  obtain ⟨x, y, rfl⟩ := h
  exact ⟨a ++ x, y ++ b, by simp [String.append_assoc]⟩

theorem substr_trans (p q s : String) (h1 : SubStr p q) (h2 : SubStr q s) : SubStr p s := by
  obtain ⟨x, y, rfl⟩ := h1
  obtain ⟨a, b, rfl⟩ := h2
  exact ⟨a ++ x, y ++ b, by simp [String.append_assoc]⟩

theorem joinAll_substr (xs : List String) (x : String) (h : x ∈ xs) :
    SubStr x (joinAll xs) := by
  induction xs with
  | nil => cases h
  | cons y ys ih =>
    rcases List.mem_cons.mp h with rfl | hmem
    · exact ⟨"", joinAll ys, by simp [joinAll]⟩
    · obtain ⟨a, b, hab⟩ := ih hmem
      exact ⟨y ++ a, b, by simp [joinAll, hab, String.append_assoc]⟩

end ISI

namespace ISI

/-- C1: the generated output has exactly one row fragment per line that is
non-empty after splitting `isiText` on the endings CR LF, CR, LF (the code's
split agrees with the spec's three-ending split, mixed endings included);
blank lines are filtered out before row generation, so they produce no row.
Concretely, the mixed-endings input "a\r\nb\rc\nd" yields exactly 4 rows. -/
theorem one_row_per_nonempty_line (v : ISIValues) :
    splitISI v.ISI = specSplitLines v.ISI ∧
    rowFragments v = ((specSplitLines v.ISI).filter (fun l => l.length > 0)).map (classifyRow v) ∧
    (rowFragments v).length = ((specSplitLines v.ISI).filter (fun l => l.length > 0)).length ∧
    (rowFragments { defaultISIValues with ISI := "a\r\nb\rc\nd" }).length = 4 := by
  refine ⟨splitISI_eq_spec v.ISI, ?_, ?_, by rfl⟩
  · unfold rowFragments nonEmptyLines
    rw [splitISI_eq_spec]
  · unfold rowFragments nonEmptyLines
    rw [splitISI_eq_spec, List.length_map]

/-- C7: row order equals input line order — the i-th emitted row fragment is
exactly the classification of the i-th non-empty line; no reordering. -/
theorem row_order_preserved (v : ISIValues) (i : Nat) :
    (rowFragments v).get? i = ((nonEmptyLines v.ISI).get? i).map (classifyRow v) := by
  simp [rowFragments]

/-- C8: generation is total — for every record (any combination of absent or
present optional fields and any text) it returns a string, and that string is
never empty; there is no failure state inside generation. -/
theorem generation_total (v : ISIValues) :
    ∃ s : String, handleISIValues v = s ∧ s ≠ "" := by
  refine ⟨handleISIValues v, rfl, fun h => ?_⟩
  have hl := congrArg String.length h
  simp [handleISIValues, outerTable, String.length_append] at hl
  exact absurd hl.2 (by decide)

/-- C10: the output is completely independent of `hasBullets` — the generator
never reads it — and the bullet glyph cell (which is colored with
`bulletColor`) is likewise unchanged by any value of `hasBullets`. -/
theorem output_independent_of_hasBullets (v : ISIValues) (b b' : Option Bool) :
    handleISIValues { v with hasBullets := b } = handleISIValues { v with hasBullets := b' } ∧
    bulletGlyphCell { v with hasBullets := b } = bulletGlyphCell v := by
  exact ⟨rfl, rfl⟩

end ISI

namespace ISI

/-- C4: classification looks only at the leading characters, with priority
`**` before `-` before plain: a `**` line is rendered bold with two
characters stripped (so "**-foo" is bold, not bullet), a `-` line that is
not a `**` line is rendered as a bullet with one character stripped, and
any other line is rendered plain and unchanged; the bold and bullet flags
passed to the row generator are never both true. -/
theorem classification_priority (v : ISIValues) (l : String) :
    (jsStartsWith l "**" = true → classifyRow v l = generateRow v (jsDrop l 2) true false) ∧
    (jsStartsWith l "**" = false → jsStartsWith l "-" = true →
      classifyRow v l = generateRow v (jsDrop l 1) false true) ∧
    (jsStartsWith l "**" = false → jsStartsWith l "-" = false →
      classifyRow v l = generateRow v l false false) ∧
    classifyRow v "**-foo" = generateRow v "-foo" true false := by
  refine ⟨fun h => ?_, fun h1 h2 => ?_, fun h1 h2 => ?_, rfl⟩
  · simp [classifyRow, h]
  · simp [classifyRow, h1, h2]
  · simp [classifyRow, h1, h2]

/-- C4 witness: the three classification branches at concrete lines. -/
theorem classification_priority_spot :
    classifyRow defaultISIValues "**B" = generateRow defaultISIValues "B" true false ∧
    classifyRow defaultISIValues "-I" = generateRow defaultISIValues "I" false true ∧
    classifyRow defaultISIValues "P" = generateRow defaultISIValues "P" false false :=
  ⟨(classification_priority defaultISIValues "**B").1 (by decide),
   (classification_priority defaultISIValues "-I").2.1 (by decide) (by decide),
   (classification_priority defaultISIValues "P").2.2.1 (by decide) (by decide)⟩

/-- C5: every bullet-classified line produces a row holding a nested
width-100% two-column table whose left cell has width 12 and carries the
`&bull;` glyph, bold and colored with `bulletColor`, and whose right cell
carries the stripped line text wrapped in the common style. -/
theorem bullet_row_structure (v : ISIValues) (l : String)
    (h1 : jsStartsWith l "**" = false) (h2 : jsStartsWith l "-" = true) :
    classifyRow v l = generateRow v (jsDrop l 1) false true ∧
    SubStr "<table cellpadding=\"0\" cellspacing=\"0\" border=\"0\" width=\"100%\">" (classifyRow v l) ∧
    SubStr (bulletGlyphCell v) (classifyRow v l) ∧
    SubStr (bulletTextCell v false (jsDrop l 1)) (classifyRow v l) := by
  have hc : classifyRow v l = generateRow v (jsDrop l 1) false true := by
    simp [classifyRow, h1, h2]
  refine ⟨hc, ?_, ?_, ?_⟩ <;> rw [hc] <;> unfold generateRow <;> simp only [if_pos]
  · exact ⟨"\n\t\t\t\t<tr>\n\t\t\t\t\t<td>\n\t\t\t\t\t\t",
      "\n\t\t\t\t\t\t\t<tr>\n\t\t\t\t\t\t\t\t" ++ bulletGlyphCell v ++ "\n\t\t\t\t\t\t\t\t" ++
      bulletTextCell v false (jsDrop l 1) ++
      "\n\t\t\t\t\t\t\t</tr>\n\t\t\t\t\t\t</table>\n\t\t\t\t\t</td>\n\t\t\t\t</tr>",
      by simp only [String.append_assoc]⟩
  · exact ⟨"\n\t\t\t\t<tr>\n\t\t\t\t\t<td>\n\t\t\t\t\t\t" ++
      "<table cellpadding=\"0\" cellspacing=\"0\" border=\"0\" width=\"100%\">" ++
      "\n\t\t\t\t\t\t\t<tr>\n\t\t\t\t\t\t\t\t",
      "\n\t\t\t\t\t\t\t\t" ++ bulletTextCell v false (jsDrop l 1) ++
      "\n\t\t\t\t\t\t\t</tr>\n\t\t\t\t\t\t</table>\n\t\t\t\t\t</td>\n\t\t\t\t</tr>",
      by simp only [String.append_assoc]⟩
  · exact ⟨"\n\t\t\t\t<tr>\n\t\t\t\t\t<td>\n\t\t\t\t\t\t" ++
      "<table cellpadding=\"0\" cellspacing=\"0\" border=\"0\" width=\"100%\">" ++
      "\n\t\t\t\t\t\t\t<tr>\n\t\t\t\t\t\t\t\t" ++ bulletGlyphCell v ++ "\n\t\t\t\t\t\t\t\t",
      "\n\t\t\t\t\t\t\t</tr>\n\t\t\t\t\t\t</table>\n\t\t\t\t\t</td>\n\t\t\t\t</tr>",
      by simp only [String.append_assoc]⟩

/-- C5 witness: the input line "-Item" yields a row whose glyph cell holds
`&bull;` and whose text cell holds "Item". -/
theorem bullet_row_structure_spot :
    classifyRow defaultISIValues "-Item" = generateRow defaultISIValues "Item" false true ∧
    SubStr (bulletGlyphCell defaultISIValues) (classifyRow defaultISIValues "-Item") ∧
    SubStr (bulletTextCell defaultISIValues false "Item") (classifyRow defaultISIValues "-Item") := by
  have h := bullet_row_structure defaultISIValues "-Item" (by decide) (by decide)
  exact ⟨h.1, h.2.2.1, h.2.2.2⟩

end ISI

namespace ISI

set_option maxRecDepth 16384 in
/-- C2 counterexample: on a record whose optional fields are all absent or
zero-length, the generated HTML does not carry the documented defaults for
font size, font color, padding or line height — the absent numbers render
as "undefinedpx" and the empty color renders as an empty value. -/
theorem render_defaults_counterexample :
    containsSub "font-size: 16px" (handleISIValues allAbsentConfig) = false ∧
    containsSub "color: #000000" (handleISIValues allAbsentConfig) = false ∧
    containsSub "padding-bottom: 10px" (handleISIValues allAbsentConfig) = false ∧
    containsSub "line-height: 16px" (handleISIValues allAbsentConfig) = false ∧
    containsSub "font-size: undefinedpx" (handleISIValues allAbsentConfig) = true ∧
    containsSub "color: ; padding-bottom: undefinedpx" (handleISIValues allAbsentConfig) = true := by
  decide

/-- C2 amended: the core applies render-time defaults only to the table
color (#FFFFFE) and the gutter width (30px); the documented defaults for
padding, font size, font color and line height are supplied by the form's
initial values, so the generated style carries them exactly when the record
still holds those values. -/
theorem render_defaults_amended (v : ISIValues)
    (hp : v.padding = some 10) (hf : v.fontSize = some 16)
    (hc : v.fontColor = some "#000000") (hl : v.lineHeight = some 16)
    (ht : v.tableColor = none ∨ v.tableColor = some "")
    (hg : v.gutterWidth = none ∨ v.gutterWidth = some 0) :
    tableColorValue v = "#FFFFFE" ∧ gutterWidthValue v = "30px" ∧
    commonStyle v false =
      "font-family: Arial, Helvetica, sans-serif; font-size: 16px; line-height: 16px; color: #000000; padding-bottom: 10px; font-weight: normal;" := by
  refine ⟨?_, ?_, ?_⟩
  · rcases ht with h | h <;> simp [tableColorValue, h]
  · rcases hg with h | h <;> simp [gutterWidthValue, h]
  · rw [commonStyle, hp, hf, hc, hl]
    rfl

/-- C2 amended witness: the defaults at a concrete record. -/
theorem render_defaults_amended_spot :
    tableColorValue partialDefaultConfig = "#FFFFFE" ∧
    gutterWidthValue partialDefaultConfig = "30px" ∧
    commonStyle partialDefaultConfig false =
      "font-family: Arial, Helvetica, sans-serif; font-size: 16px; line-height: 16px; color: #000000; padding-bottom: 10px; font-weight: normal;" :=
  render_defaults_amended partialDefaultConfig rfl rfl rfl rfl (Or.inl rfl) (Or.inr rfl)

set_option maxRecDepth 16384 in
/-- C3 counterexample: two records identical except for `bulletColor`, both
with `hasBullets` false, still generate different outputs when a bullet line
is present — the generator reads `bulletColor` without consulting
`hasBullets`. -/
theorem bulletColor_gating_counterexample :
    ({ bulletProbeA with bulletColor := some "#654321" } = bulletProbeB) ∧
    bulletProbeA.hasBullets = some false ∧
    bulletProbeB.hasBullets = some false ∧
    handleISIValues bulletProbeA ≠ handleISIValues bulletProbeB := by
  refine ⟨rfl, rfl, rfl, ?_⟩
  decide

theorem generateRow_nonbullet (v : ISIValues) (t : String) (b : Bool) :
    generateRow v t b false =
      "\n\t\t\t\t<tr>\n\t\t\t\t\t<td align=\"left\" style=\"" ++ commonStyle v b ++
      "\">\n\t\t\t\t\t\t" ++ t ++ "\n\t\t\t\t\t</td>\n\t\t\t\t</tr>" := rfl

theorem commonStyle_set_bulletColor (v : ISIValues) (c : Option String) (b : Bool) :
    commonStyle { v with bulletColor := c } b = commonStyle v b := rfl

theorem tableColorValue_set_bulletColor (v : ISIValues) (c : Option String) :
    tableColorValue { v with bulletColor := c } = tableColorValue v := rfl

theorem gutterWidthValue_set_bulletColor (v : ISIValues) (c : Option String) :
    gutterWidthValue { v with bulletColor := c } = gutterWidthValue v := rfl

theorem classifyRow_set_bulletColor_nonbullet (v : ISIValues) (c1 c2 : Option String) (l : String)
    (h : jsStartsWith l "**" = true ∨ jsStartsWith l "-" = false) :
    classifyRow { v with bulletColor := c1 } l = classifyRow { v with bulletColor := c2 } l := by
  unfold classifyRow
  rcases h with hb | hnb
  · rw [hb]
    rw [if_pos rfl, if_pos rfl]
    rw [generateRow_nonbullet, generateRow_nonbullet, commonStyle_set_bulletColor,
      commonStyle_set_bulletColor]
    rfl
  · by_cases hb2 : jsStartsWith l "**"
    · rw [hb2]
      rw [if_pos rfl, if_pos rfl]
      rw [generateRow_nonbullet, generateRow_nonbullet, commonStyle_set_bulletColor,
        commonStyle_set_bulletColor]
      rfl
    · rw [Bool.not_eq_true] at hb2
      rw [hb2, hnb]
      rw [if_neg Bool.false_ne_true, if_neg Bool.false_ne_true, if_neg Bool.false_ne_true,
        if_neg Bool.false_ne_true]
      rw [generateRow_nonbullet, generateRow_nonbullet, commonStyle_set_bulletColor,
        commonStyle_set_bulletColor]
      rfl

/-- C3 amended: `bulletColor` is used only in bullet rows — when no
non-empty line is classified as a bullet (every line is bold or lacks the
`-` marker), records identical except for `bulletColor` generate identical
output whatever `hasBullets` holds. -/
theorem bulletColor_only_in_bullet_rows (v : ISIValues) (c1 c2 : Option String)
    (h : ∀ l ∈ nonEmptyLines v.ISI, jsStartsWith l "**" = true ∨ jsStartsWith l "-" = false) :
    handleISIValues { v with bulletColor := c1 } = handleISIValues { v with bulletColor := c2 } := by
  have hfrag : rowFragments { v with bulletColor := c1 } = rowFragments { v with bulletColor := c2 } := by
    show (nonEmptyLines v.ISI).map (classifyRow { v with bulletColor := c1 }) =
      (nonEmptyLines v.ISI).map (classifyRow { v with bulletColor := c2 })
    apply List.map_congr_left
    intro l hl
    exact classifyRow_set_bulletColor_nonbullet v c1 c2 l (h l hl)
  have hrows : generatedISIRows { v with bulletColor := c1 } = generatedISIRows { v with bulletColor := c2 } :=
    congrArg joinAll hfrag
  unfold handleISIValues
  rw [hrows]
  rfl

/-- C3 amended witness: a bold line and a plain line, two bullet colors,
identical outputs. -/
theorem bulletColor_only_in_bullet_rows_spot :
    handleISIValues { { defaultISIValues with ISI := "**a\nplain" } with bulletColor := some "#111111" } =
    handleISIValues { { defaultISIValues with ISI := "**a\nplain" } with bulletColor := some "#222222" } :=
  bulletColor_only_in_bullet_rows { defaultISIValues with ISI := "**a\nplain" }
    (some "#111111") (some "#222222") (by decide)

end ISI

namespace ISI

theorem substr_text_generateRow (v : ISIValues) (t : String) (b bl : Bool) :
    SubStr t (generateRow v t b bl) := by
  cases bl with
  | false =>
    exact ⟨"\n\t\t\t\t<tr>\n\t\t\t\t\t<td align=\"left\" style=\"" ++ commonStyle v b ++
      "\">\n\t\t\t\t\t\t",
      "\n\t\t\t\t\t</td>\n\t\t\t\t</tr>",
      by rw [generateRow_nonbullet]⟩
  | true =>
    refine ⟨"\n\t\t\t\t<tr>\n\t\t\t\t\t<td>\n\t\t\t\t\t\t" ++
      "<table cellpadding=\"0\" cellspacing=\"0\" border=\"0\" width=\"100%\">" ++
      "\n\t\t\t\t\t\t\t<tr>\n\t\t\t\t\t\t\t\t" ++ bulletGlyphCell v ++
      "\n\t\t\t\t\t\t\t\t" ++
      "<td valign=\"top\" align=\"left\" style=\"" ++ commonStyle v b ++ "\">",
      "</td>" ++ "\n\t\t\t\t\t\t\t</tr>\n\t\t\t\t\t\t</table>\n\t\t\t\t\t</td>\n\t\t\t\t</tr>", ?_⟩
    unfold generateRow bulletTextCell
    rw [if_pos rfl]
    simp only [String.append_assoc]

theorem substr_strip_classifyRow (v : ISIValues) (l : String) :
    SubStr (stripMarker l) (classifyRow v l) := by
  unfold classifyRow stripMarker
  by_cases h1 : jsStartsWith l "**" = true
  · rw [h1, if_pos rfl, if_pos rfl]
    exact substr_text_generateRow v (jsDrop l 2) true false
  · rw [Bool.not_eq_true] at h1
    rw [h1]
    by_cases h2 : jsStartsWith l "-" = true
    · rw [h2, if_neg Bool.false_ne_true, if_neg Bool.false_ne_true, if_pos rfl, if_pos rfl]
      exact substr_text_generateRow v (jsDrop l 1) false true
    · rw [Bool.not_eq_true] at h2
      rw [h2, if_neg Bool.false_ne_true, if_neg Bool.false_ne_true, if_neg Bool.false_ne_true,
        if_neg Bool.false_ne_true]
      exact substr_text_generateRow v l false false

theorem substr_rows_outerTable (tc gw rows : String) : SubStr rows (outerTable tc gw rows) := by
  refine ⟨"<table cellpadding=\"0\" cellspacing=\"0\" border=\"0\" width=\"600\" style=\"min-width: 600px;\" class=\"wrapper\" role=\"presentation\" bgcolor=\"" ++
    tc ++ "\">\n\t<tr>\n\t\t<td width=\"" ++ gw ++
    "\" class=\"gutter\">&nbsp;</td>\n\t\t<td>\n\t\t\t<table cellpadding=\"0\" cellspacing=\"0\" border=\"0\" width=\"100%\">",
    "\n\t\t\t</table>\n\t\t</td>\n\t\t<td width=\"" ++ gw ++
    "\" class=\"gutter\">&nbsp;</td>\n\t</tr>\n</table>", ?_⟩
  unfold outerTable
  simp only [String.append_assoc]

/-- C9: no HTML-escaping is performed — for every non-empty input line, its
text after marker stripping appears character-for-character as a substring
of the generated output, whatever characters it contains. -/
theorem text_passes_through_unescaped (v : ISIValues) (l : String)
    (h : l ∈ nonEmptyLines v.ISI) :
    SubStr (stripMarker l) (handleISIValues v) := by
  have h1 := substr_strip_classifyRow v l
  have h2 : SubStr (classifyRow v l) (generatedISIRows v) :=
    joinAll_substr (rowFragments v) (classifyRow v l) (List.mem_map_of_mem (classifyRow v) h)
  have h3 : SubStr (generatedISIRows v) (handleISIValues v) :=
    substr_rows_outerTable (tableColorValue v) (gutterWidthValue v) (generatedISIRows v)
  exact substr_trans _ _ _ (substr_trans _ _ _ h1 h2) h3

/-- C9 witness: an HTML-significant line passes through verbatim. -/
theorem text_passes_through_unescaped_spot :
    SubStr (stripMarker "<i>&amp;</i>") (handleISIValues { defaultISIValues with ISI := "<i>&amp;</i>" }) ∧
    stripMarker "<i>&amp;</i>" = "<i>&amp;</i>" :=
  ⟨text_passes_through_unescaped { defaultISIValues with ISI := "<i>&amp;</i>" }
    "<i>&amp;</i>" (by decide), rfl⟩

set_option maxRecDepth 16384 in
/-- C6: the returned string is the concatenated row fragments wrapped in
exactly one outer width-600 presentation table whose bgcolor is the
resolved table color (the given one when non-empty, #FFFFFE by default),
with two gutter cells of the same resolved gutter width (the given non-zero
number, 30px by default) flanking the middle cell that holds the width-100%
inner table of rows; the spec's end-to-end example renders exactly as
documented. -/
theorem outer_table_assembly (v : ISIValues) :
    handleISIValues v = outerTable (tableColorValue v) (gutterWidthValue v) (generatedISIRows v) ∧
    (v.tableColor = none → tableColorValue v = "#FFFFFE") ∧
    (∀ c, v.tableColor = some c → ¬ c = "" → tableColorValue v = c) ∧
    (v.gutterWidth = none → gutterWidthValue v = "30px") ∧
    (∀ n : Int, v.gutterWidth = some n → ¬ n = 0 → gutterWidthValue v = toString n) ∧
    handleISIValues { defaultISIValues with ISI := "**Important\n-Side effect\nRegular line" } =
      "<table cellpadding=\"0\" cellspacing=\"0\" border=\"0\" width=\"600\" style=\"min-width: 600px;\" class=\"wrapper\" role=\"presentation\" bgcolor=\"#FFFFFE\">\n\t<tr>\n\t\t<td width=\"30\" class=\"gutter\">&nbsp;</td>\n\t\t<td>\n\t\t\t<table cellpadding=\"0\" cellspacing=\"0\" border=\"0\" width=\"100%\">\n\t\t\t\t<tr>\n\t\t\t\t\t<td align=\"left\" style=\"font-family: Arial, Helvetica, sans-serif; font-size: 16px; line-height: 16px; color: #000000; padding-bottom: 10px; font-weight: bold;\">\n\t\t\t\t\t\tImportant\n\t\t\t\t\t</td>\n\t\t\t\t</tr>\n\t\t\t\t<tr>\n\t\t\t\t\t<td>\n\t\t\t\t\t\t<table cellpadding=\"0\" cellspacing=\"0\" border=\"0\" width=\"100%\">\n\t\t\t\t\t\t\t<tr>\n\t\t\t\t\t\t\t\t<td width=\"12\" valign=\"top\" align=\"left\" style=\"font-family: Arial, Helvetica, sans-serif; font-size: 16px; line-height: 16px; color: #000000; padding-bottom: 10px; font-weight: bold;\">&bull;</td>\n\t\t\t\t\t\t\t\t<td valign=\"top\" align=\"left\" style=\"font-family: Arial, Helvetica, sans-serif; font-size: 16px; line-height: 16px; color: #000000; padding-bottom: 10px; font-weight: normal;\">Side effect</td>\n\t\t\t\t\t\t\t</tr>\n\t\t\t\t\t\t</table>\n\t\t\t\t\t</td>\n\t\t\t\t</tr>\n\t\t\t\t<tr>\n\t\t\t\t\t<td align=\"left\" style=\"font-family: Arial, Helvetica, sans-serif; font-size: 16px; line-height: 16px; color: #000000; padding-bottom: 10px; font-weight: normal;\">\n\t\t\t\t\t\tRegular line\n\t\t\t\t\t</td>\n\t\t\t\t</tr>\n\t\t\t</table>\n\t\t</td>\n\t\t<td width=\"30\" class=\"gutter\">&nbsp;</td>\n\t</tr>\n</table>" := by
  refine ⟨rfl, fun h => ?_, fun c h hc => ?_, fun h => ?_, fun n h hn => ?_, ?_⟩
  · simp [tableColorValue, h]
  · simp [tableColorValue, h, hc]
  · simp [gutterWidthValue, h]
  · simp [gutterWidthValue, h, hn]
  · rfl

/-- C6 witness: the defaulting branches at concrete records. -/
theorem outer_table_assembly_spot :
    tableColorValue partialDefaultConfig = "#FFFFFE" ∧
    gutterWidthValue allAbsentConfig = "30px" ∧
    tableColorValue defaultISIValues = "#FFFFFE" ∧
    gutterWidthValue defaultISIValues = "30" :=
  ⟨(outer_table_assembly partialDefaultConfig).2.1 rfl,
   (outer_table_assembly allAbsentConfig).2.2.2.1 rfl,
   (outer_table_assembly defaultISIValues).2.2.1 "#FFFFFE" rfl (by decide),
   (outer_table_assembly defaultISIValues).2.2.2.2.1 30 rfl (by decide)⟩

end ISI
